import Mathlib

/-!
Verification of the comit-rs swap protocol execution engine against its
natural-language specification.  Definitions are shallow embeddings of the
Rust source files:

* `BtcErc20Bob`   — `application/comit_node/src/swap_protocols/rfc003/bob/actions/btc_erc20.rs`
* `BtcEthAlice`   — `application/comit_node/src/swap_protocols/rfc003/alice/actions/btc_eth.rs`
* `NectarHerc20`  — `nectar/src/swap/comit/herc20.rs`
* `NectarDb`      — `nectar/src/database/herc20.rs`
* `BitcoinCache`  — `comit/src/btsieve/bitcoin/cache.rs`
* `NectarWallet`  — `src/bitcoin/wallet.rs`

Machine integers are modelled as `Nat` with explicit reduction modulo `2^32`
where the source's arithmetic overflows (SHA-256); opaque on-chain values
(hashes, addresses, transaction ids, amounts, networks) are modelled as `Nat`.
Fallible operations return `Except`/`Option`.
-/

namespace BtcErc20Bob

/-- Modelled from the spec: rfc003 `LedgerState` — observed progress of one
leg's HTLC: `NotDeployed`, `Deployed{location,tx}`, `Funded{location,tx}`,
`Redeemed{tx,secret}`, `Refunded{tx}` (type itself lives outside the sampled
files; the variants and fields follow §3 of the spec and the patterns matched
in `btc_erc20.rs`). -/
inductive LedgerState where
  | NotDeployed : LedgerState
  | Deployed (htlc_location : Nat) (deploy_transaction : Nat) : LedgerState
  | Funded (htlc_location : Nat) (fund_transaction : Nat) : LedgerState
  | Redeemed (redeem_transaction : Nat) (secret : Nat) : LedgerState
  | Refunded (refund_transaction : Nat) : LedgerState
deriving DecidableEq, Repr

/-- `SecretSource` capability: only `secp256k1_redeem` is used by
`redeem_action`; the key is opaque. -/
structure SecretSource where
  secp256k1_redeem : Nat
deriving DecidableEq, Repr

/-- HTLC parameters of one leg; opaque for the purposes of action
derivation (built by `alpha_htlc_params`/`beta_htlc_params`). -/
structure HtlcParams where
  params_id : Nat
deriving DecidableEq, Repr

/-- The fields of `swap_accepted.request` read by the action builders in
`btc_erc20.rs`, together with the two legs' HTLC parameters
(`alpha_htlc_params()` / `beta_htlc_params()` are accessors computed outside
the sampled files; modelled as stored fields). -/
structure SwapAccepted where
  alpha_asset : Nat
  beta_asset_token_contract : Nat
  alpha_ledger_network : Nat
  beta_ledger_network : Nat
  alpha_htlc_params : HtlcParams
  beta_htlc_params : HtlcParams
deriving DecidableEq, Repr

/-- `ethereum::ContractDeploy`: obtained via `.into()` from the beta HTLC
params (`deploy_action`). -/
structure ContractDeploy where
  htlc_params : HtlcParams
deriving DecidableEq, Repr

/-- `Erc20Htlc::from(params)`: wrapper around the HTLC params (library type,
outside the sampled files; modelled as recording its input). -/
structure Erc20Htlc where
  params : HtlcParams
deriving DecidableEq, Repr

/-- `htlc.funding_tx_payload(beta_htlc_location)`: library call, modelled as
recording its inputs. -/
structure FundingPayload where
  htlc : Erc20Htlc
  htlc_location : Nat
deriving DecidableEq, Repr

/-- Payload of an ethereum transaction as built in `btc_erc20.rs`:
either the ERC20 funding payload or the default (empty) bytes. -/
inductive TxData where
  | bytes_default : TxData
  | funding (p : FundingPayload) : TxData
deriving DecidableEq, Repr

/-- `ethereum::SendTransaction` (fields as assigned in `fund_action`). -/
structure SendTransaction where
  to_address : Nat
  data : TxData
  gas_limit : Nat
  amount : Nat
  network : Nat
deriving DecidableEq, Repr

/-- `Erc20Htlc::fund_tx_gas_limit()` — library constant, value opaque. -/
def erc20_fund_tx_gas_limit : Nat := 100000

/-- `bitcoin::Htlc::from(params)` — library conversion, modelled as recording
its input. -/
structure BitcoinHtlc where
  params : HtlcParams
deriving DecidableEq, Repr

/-- `htlc.unlock_with_secret(key, secret)` — library call, modelled as
recording its inputs. -/
structure UnlockWithSecret where
  htlc : BitcoinHtlc
  redeem_key : Nat
  secret : Nat
deriving DecidableEq, Repr

/-- `PrimedInput::new(outpoint, asset, unlock)` — library constructor,
modelled as recording its inputs. -/
structure PrimedInput where
  outpoint : Nat
  asset : Nat
  unlock : UnlockWithSecret
deriving DecidableEq, Repr

/-- `bitcoin::SpendOutput` (fields as assigned in `redeem_action`). -/
structure SpendOutput where
  output : PrimedInput
  network : Nat
deriving DecidableEq, Repr

/-- `Accept::new(sender, secret_source)`. -/
structure Accept where
  sender : Nat
  secret_source : SecretSource
deriving DecidableEq, Repr

/-- `Decline::new(sender)`. -/
structure Decline where
  sender : Nat
deriving DecidableEq, Repr

/-- `pending_response` of `SwapCommunication::Proposed`; only `sender` is
read. -/
structure PendingResponse where
  sender : Nat
deriving DecidableEq, Repr

/-- `bob::SwapCommunication`. -/
inductive SwapCommunication where
  | Proposed (pending_response : PendingResponse) : SwapCommunication
  | Accepted (swap_accepted : SwapAccepted) : SwapCommunication
  | Rejected : SwapCommunication
deriving DecidableEq, Repr

/-- `bob::ActionKind<Accept, Decline, ContractDeploy, SendTransaction,
SpendOutput, SendTransaction>` as instantiated in `btc_erc20.rs`. -/
inductive ActionKind where
  | Accept (a : Accept) : ActionKind
  | Decline (d : Decline) : ActionKind
  | Deploy (d : ContractDeploy) : ActionKind
  | Fund (f : SendTransaction) : ActionKind
  | Redeem (r : SpendOutput) : ActionKind
  | Refund (r : SendTransaction) : ActionKind
deriving DecidableEq, Repr

/-- `bob::State<Bitcoin, Ethereum, BitcoinQuantity, Erc20Token>`: the fields
read by `actions`. -/
structure State where
  swap_communication : SwapCommunication
  alpha_ledger_state : LedgerState
  beta_ledger_state : LedgerState
  secret : Option Nat
  secret_source : SecretSource
deriving DecidableEq, Repr

/-- `deploy_action` (btc_erc20.rs:23-25): the beta HTLC params converted into
a contract deployment. -/
def deploy_action (swap_accepted : SwapAccepted) : ContractDeploy :=
  { htlc_params := swap_accepted.beta_htlc_params }

/-- `fund_action` (btc_erc20.rs:27-43). -/
def fund_action (swap_accepted : SwapAccepted) (beta_htlc_location : Nat) :
    SendTransaction :=
  let to_address := swap_accepted.beta_asset_token_contract
  let htlc : Erc20Htlc := { params := swap_accepted.beta_htlc_params }
  let gas_limit := erc20_fund_tx_gas_limit
  let network := swap_accepted.beta_ledger_network
  { to_address := to_address
    data := TxData.funding { htlc := htlc, htlc_location := beta_htlc_location }
    gas_limit := gas_limit
    amount := 0
    network := network }

/-- `redeem_action` (btc_erc20.rs:62-80): spends the alpha (Bitcoin) HTLC
with the secret. -/
def redeem_action (swap_accepted : SwapAccepted) (alpha_htlc_location : Nat)
    (secret_source : SecretSource) (secret : Nat) : SpendOutput :=
  let alpha_asset := swap_accepted.alpha_asset
  let htlc : BitcoinHtlc := { params := swap_accepted.alpha_htlc_params }
  let network := swap_accepted.alpha_ledger_network
  { output :=
      { outpoint := alpha_htlc_location
        asset := alpha_asset
        unlock :=
          { htlc := htlc
            redeem_key := secret_source.secp256k1_redeem
            secret := secret } }
    network := network }

/-- `Actions::actions` for `bob::State<Bitcoin, Ethereum, BitcoinQuantity,
Erc20Token>` (btc_erc20.rs:92-130), mirroring the Rust match arm by arm. -/
def actions (s : State) : List ActionKind :=
  match s.swap_communication with
  | SwapCommunication.Proposed pending_response =>
      [ActionKind.Accept { sender := pending_response.sender
                           secret_source := s.secret_source },
       ActionKind.Decline { sender := pending_response.sender }]
  | SwapCommunication.Rejected => []
  | SwapCommunication.Accepted swap_accepted =>
      match s.alpha_ledger_state, s.beta_ledger_state, s.secret with
      | LedgerState.Funded htlc_location _, _, some secret =>
          [ActionKind.Redeem
            (redeem_action swap_accepted htlc_location s.secret_source secret)]
      | LedgerState.Funded _ _, LedgerState.NotDeployed, _ =>
          [ActionKind.Deploy (deploy_action swap_accepted)]
      | LedgerState.Funded _ _, LedgerState.Deployed htlc_location _, _ =>
          [ActionKind.Fund (fund_action swap_accepted htlc_location)]
      | _, _, _ => []

end BtcErc20Bob

namespace BtcEthAlice

/-- The fields of `Start` read by the Alice action derivation
(`source_asset`, `secret`, `source_identity`). -/
structure Start where
  source_asset : Nat
  secret : Nat
  source_identity : Nat
deriving DecidableEq, Repr

/-- The accepted response; opaque — only passed whole to the HTLC
builders. -/
structure Response where
  response_id : Nat
deriving DecidableEq, Repr

/-- `bitcoin_htlc(start, response)` — helper defined outside the sampled
file, modelled as recording its inputs. -/
structure BtcHtlc where
  start : Start
  response : Response
deriving DecidableEq, Repr

/-- `bitcoin_htlc_address(start, response)` — helper defined outside the
sampled file, modelled as recording its inputs. -/
structure BtcHtlcAddress where
  start : Start
  response : Response
deriving DecidableEq, Repr

/-- `bitcoin_htlc` helper call. -/
def bitcoin_htlc (start : Start) (response : Response) : BtcHtlc :=
  { start := start, response := response }

/-- `bitcoin_htlc_address` helper call. -/
def bitcoin_htlc_address (start : Start) (response : Response) :
    BtcHtlcAddress :=
  { start := start, response := response }

/-- `BitcoinFund` payload. -/
structure BitcoinFund where
  address : BtcHtlcAddress
  value : Nat
deriving DecidableEq, Repr

/-- `EtherRedeem` payload. -/
structure EtherRedeem where
  contract_address : Nat
  execution_gas : Nat
  data : Nat
deriving DecidableEq, Repr

/-- `BitcoinRefund` payload. -/
structure BitcoinRefund where
  outpoint : Nat
  htlc : BtcHtlc
  value : Nat
  transient_keypair : Nat
deriving DecidableEq, Repr

/-- `Action<BitcoinFund, EtherRedeem, BitcoinRefund>`. -/
inductive Action where
  | FundHtlc (f : BitcoinFund) : Action
  | RedeemHtlc (r : EtherRedeem) : Action
  | RefundHtlc (r : BitcoinRefund) : Action
deriving DecidableEq, Repr

/-- `SwapStates<Bitcoin, Ethereum, BitcoinQuantity, EtherQuantity, Secret>`:
each variant carries the fields read by `actions` (the Rust structs hold
further bookkeeping fields not read by this function). -/
inductive SwapStates where
  | Start (start : Start) : SwapStates
  | Accepted (start : Start) (response : Response) : SwapStates
  | SourceFunded (start : Start) (response : Response)
      (source_htlc_id : Nat) : SwapStates
  | BothFunded (source_htlc_id : Nat) (target_htlc_id : Nat)
      (start : Start) (response : Response) : SwapStates
  | SourceFundedTargetRefunded (start : Start) (response : Response)
      (source_htlc_id : Nat) : SwapStates
  | SourceFundedTargetRedeemed (start : Start) (response : Response)
      (source_htlc_id : Nat) : SwapStates
  | SourceRefundedTargetFunded (target_htlc_id : Nat) (start : Start) :
      SwapStates
  | SourceRedeemedTargetFunded (target_htlc_id : Nat) (start : Start) :
      SwapStates
  | Error (e : Nat) : SwapStates
  | Final (f : Nat) : SwapStates
deriving DecidableEq, Repr

/-- `StateActions::actions` for Alice's BTC/ETH pair (btc_eth.rs:16-82),
mirroring the Rust match arm by arm. -/
def actions (s : SwapStates) : List Action :=
  match s with
  | SwapStates.Start _ => []
  | SwapStates.Accepted start response =>
      [Action.FundHtlc { address := bitcoin_htlc_address start response
                         value := start.source_asset }]
  | SwapStates.SourceFunded _ _ _ => []
  | SwapStates.BothFunded source_htlc_id target_htlc_id start response =>
      [Action.RedeemHtlc { contract_address := target_htlc_id
                           execution_gas := 42
                           data := start.secret },
       Action.RefundHtlc { outpoint := source_htlc_id
                           htlc := bitcoin_htlc start response
                           value := start.source_asset
                           transient_keypair := start.source_identity }]
  | SwapStates.SourceFundedTargetRefunded start response source_htlc_id =>
      [Action.RefundHtlc { outpoint := source_htlc_id
                           htlc := bitcoin_htlc start response
                           value := start.source_asset
                           transient_keypair := start.source_identity }]
  | SwapStates.SourceFundedTargetRedeemed start response source_htlc_id =>
      [Action.RefundHtlc { outpoint := source_htlc_id
                           htlc := bitcoin_htlc start response
                           value := start.source_asset
                           transient_keypair := start.source_identity }]
  | SwapStates.SourceRefundedTargetFunded target_htlc_id start =>
      [Action.RedeemHtlc { contract_address := target_htlc_id
                           execution_gas := 42
                           data := start.secret }]
  | SwapStates.SourceRedeemedTargetFunded target_htlc_id start =>
      [Action.RedeemHtlc { contract_address := target_htlc_id
                           execution_gas := 42
                           data := start.secret }]
  | SwapStates.Error _ => []
  | SwapStates.Final _ => []

end BtcEthAlice

namespace NectarHerc20

/-- `herc20::Deployed` (transaction hash and HTLC contract location). -/
structure Deployed where
  transaction : Nat
  location : Nat
deriving DecidableEq, Repr

/-- `asset::Erc20` — token contract plus quantity. -/
structure Erc20 where
  token_contract : Nat
  quantity : Nat
deriving DecidableEq, Repr

/-- Modelled from the spec: `comit::herc20::Funded` — the funding-correctness
classification produced by the comit crate's watcher (that crate's
`watch_for_funded` is outside the sampled files): a funding transaction is
classified `Correctly` or `Incorrectly` by comparing amount/asset with the
expected ones. -/
inductive ComitFunded where
  | Correctly (transaction : Nat) (asset : Erc20) : ComitFunded
  | Incorrectly (transaction : Nat) (asset : Erc20) : ComitFunded
deriving DecidableEq, Repr

/-- nectar's `swap::comit::herc20::Funded` (herc20.rs:57-61): carries no
correctness flag — it only exists for correctly funded HTLCs. -/
structure Funded where
  transaction : Nat
  asset : Erc20
deriving DecidableEq, Repr

/-- `herc20::Refunded`. -/
structure Refunded where
  transaction : Nat
deriving DecidableEq, Repr

/-- The `anyhow::Error` values distinguished by this module: the
`SwapFailedShouldRefund<Deployed>` wrapper (declared in
`nectar/src/swap/comit.rs`, definition outside the sampled files — it carries
the deploy event needed to refund), and any other error, carried as its
message.  `downcast_ref::<SwapFailedShouldRefund<Deployed>>` corresponds to
matching on the first constructor. -/
inductive NError where
  | swapFailedShouldRefund (deployed : Deployed) : NError
  | message (msg : String) : NError
deriving DecidableEq, Repr

/-- nectar's `watch_for_funded` (herc20.rs:63-85): runs the comit crate's
watcher (whose outcome — an error or a classification — is the `inner`
argument), then maps `Funded::Correctly` to `Ok(Funded)` and bails with a
plain error on `Funded::Incorrectly`; a watcher error propagates via `?`. -/
def watch_for_funded (inner : Except NError ComitFunded) :
    Except NError Funded :=
  match inner with
  | Except.error e => Except.error e
  | Except.ok (ComitFunded.Correctly transaction asset) =>
      Except.ok { transaction := transaction, asset := asset }
  | Except.ok (ComitFunded.Incorrectly _ _) =>
      Except.error (NError.message "Ethereum HTLC incorrectly funded")

/-- `refund_if_necessary` (herc20.rs:87-108): if the swap result is an error
that downcasts to `SwapFailedShouldRefund<Deployed>`, execute the refund on
the carried deploy event (`?` propagates a refund failure), then return the
original error; otherwise pass the result through.  The refund actor is a
state-passing function so that its invocation is observable. -/
def refund_if_necessary {σ : Type}
    (execute_refund : Deployed → σ → σ × Except NError Refunded)
    (st : σ) (swap_result : Except NError Unit) : σ × Except NError Unit :=
  match swap_result with
  | Except.ok _ => (st, Except.ok ())
  | Except.error e =>
      match e with
      | NError.swapFailedShouldRefund deployed =>
          match execute_refund deployed st with
          | (st2, Except.ok _) => (st2, Except.error e)
          | (st2, Except.error e2) => (st2, Except.error e2)
      | NError.message _ => (st, Except.error e)

/-- Modelled from the spec: the swap drivers (`hbit_herc20`/`herc20_hbit`,
outside the sampled files) surface an incorrect funding observed after the
deploy step as a swap failure wrapped in `SwapFailedShouldRefund` carrying
the deploy event, so that `refund_if_necessary` drives the refund-only path
("drives the swap to a refund-only action set, never a fatal abort"). -/
def incorrect_funding_outcome (deployed : Deployed) : Except NError Unit :=
  Except.error (NError.swapFailedShouldRefund deployed)

end NectarHerc20

namespace NectarDb

/-- `Herc20Deployed` as stored in the database record. -/
structure Herc20Deployed where
  transaction : Nat
  location : Nat
deriving DecidableEq, Repr

/-- `Herc20Funded` as stored in the database record. -/
structure Herc20Funded where
  transaction : Nat
deriving DecidableEq, Repr

/-- `Herc20Redeemed` as stored in the database record. -/
structure Herc20Redeemed where
  transaction : Nat
  secret : Nat
deriving DecidableEq, Repr

/-- `Herc20Refunded` as stored in the database record. -/
structure Herc20Refunded where
  transaction : Nat
deriving DecidableEq, Repr

/-- The herc20 slots of the per-swap database record (the Rust `Swap` struct
holds further fields not touched by these `save` impls). -/
structure Swap where
  herc20_deployed : Option Herc20Deployed
  herc20_funded : Option Herc20Funded
  herc20_redeemed : Option Herc20Redeemed
  herc20_refunded : Option Herc20Refunded
deriving DecidableEq, Repr

/-- `SwapId` — opaque identifier. -/
abbrev SwapId := Nat

/-- The database: a map from swap id to its record. -/
def Database := SwapId → Option Swap

/-- Modelled from the spec: `Database::update_swap` (defined outside the
sampled files) applies the closure to the swap's current record inside a
single transaction — absent id → error, closure error → fail without
mutating, closure success → write the returned record. -/
def update_swap (db : Database) (id : SwapId)
    (f : Swap → Except String Swap) : Except String Database :=
  match db id with
  | none => Except.error "swap not found"
  | some old_swap =>
      match f old_swap with
      | Except.error e => Except.error e
      | Except.ok new_swap =>
          Except.ok (fun j => if j = id then some new_swap else db j)

/-- `Save<herc20::Deployed>::save` (database/herc20.rs:33-45). -/
def save_deployed (db : Database) (event : Herc20Deployed) (swap_id : SwapId) :
    Except String Database :=
  update_swap db swap_id (fun old_swap =>
    match old_swap.herc20_deployed with
    | some _ => Except.error "Herc20 Deployed event is already stored"
    | none => Except.ok { old_swap with herc20_deployed := some event })

/-- `Save<herc20::Funded>::save` (database/herc20.rs:76-88). -/
def save_funded (db : Database) (event : Herc20Funded) (swap_id : SwapId) :
    Except String Database :=
  update_swap db swap_id (fun old_swap =>
    match old_swap.herc20_funded with
    | some _ => Except.error "Herc20 Funded event is already stored"
    | none => Except.ok { old_swap with herc20_funded := some event })

/-- `Save<herc20::Redeemed>::save` (database/herc20.rs:122-134). -/
def save_redeemed (db : Database) (event : Herc20Redeemed) (swap_id : SwapId) :
    Except String Database :=
  update_swap db swap_id (fun old_swap =>
    match old_swap.herc20_redeemed with
    | some _ => Except.error "Herc20 Redeem event is already stored"
    | none => Except.ok { old_swap with herc20_redeemed := some event })

/-- `Save<herc20::Refunded>::save` (database/herc20.rs:165-177). -/
def save_refunded (db : Database) (event : Herc20Refunded) (swap_id : SwapId) :
    Except String Database :=
  update_swap db swap_id (fun old_swap =>
    match old_swap.herc20_refunded with
    | some _ => Except.error "Herc20 Refunded event is already stored"
    | none => Except.ok { old_swap with herc20_refunded := some event })

/-- An herc20 event of any of the four kinds. -/
inductive Event where
  | deployed (e : Herc20Deployed) : Event
  | funded (e : Herc20Funded) : Event
  | redeemed (e : Herc20Redeemed) : Event
  | refunded (e : Herc20Refunded) : Event
deriving DecidableEq, Repr

/-- The kind of an event. -/
inductive EventKind where
  | deployed | funded | redeemed | refunded
deriving DecidableEq, Repr

/-- Kind of an event. -/
def Event.kind : Event → EventKind
  | Event.deployed _ => EventKind.deployed
  | Event.funded _ => EventKind.funded
  | Event.redeemed _ => EventKind.redeemed
  | Event.refunded _ => EventKind.refunded

/-- Dispatch to the kind's `save` impl. -/
def save (db : Database) (event : Event) (swap_id : SwapId) :
    Except String Database :=
  match event with
  | Event.deployed e => save_deployed db e swap_id
  | Event.funded e => save_funded db e swap_id
  | Event.redeemed e => save_redeemed db e swap_id
  | Event.refunded e => save_refunded db e swap_id

/-- Whether the record already stores an event of the given kind. -/
def Swap.hasKind (s : Swap) : EventKind → Bool
  | EventKind.deployed => s.herc20_deployed.isSome
  | EventKind.funded => s.herc20_funded.isSome
  | EventKind.redeemed => s.herc20_redeemed.isSome
  | EventKind.refunded => s.herc20_refunded.isSome

/-- The record with the event stored into its kind's slot. -/
def Swap.store (s : Swap) : Event → Swap
  | Event.deployed e => { s with herc20_deployed := some e }
  | Event.funded e => { s with herc20_funded := some e }
  | Event.redeemed e => { s with herc20_redeemed := some e }
  | Event.refunded e => { s with herc20_refunded := some e }

/-- The duplicate-event error message each kind's `save` bails with. -/
def duplicate_message : EventKind → String
  | EventKind.deployed => "Herc20 Deployed event is already stored"
  | EventKind.funded => "Herc20 Funded event is already stored"
  | EventKind.redeemed => "Herc20 Redeem event is already stored"
  | EventKind.refunded => "Herc20 Refunded event is already stored"

/-- The database state after a `save` call: the new database on success, the
old one on failure (the transaction mutates nothing on failure). -/
def state_after (db : Database) (r : Except String Database) : Database :=
  match r with
  | Except.ok db2 => db2
  | Except.error _ => db

end NectarDb

namespace BitcoinCache

/-- The LRU block cache, most-recently-used first, plus its capacity
(`lru::LruCache<BlockHash, Block>`), and the single-slot connected-network
cache (`Option<ledger::Bitcoin>`). -/
structure CacheState where
  block_cache : List (Nat × Nat)
  capacity : Nat
  connected_network_cache : Option Nat
deriving DecidableEq, Repr

/-- `Cache::new(connector, capacity)` (cache.rs:24-33): empty block cache,
empty network slot. -/
def Cache.new (capacity : Nat) : CacheState :=
  { block_cache := [], capacity := capacity, connected_network_cache := none }

/-- `LruCache::get`: on a hit the entry is moved to the most-recently-used
position and its value returned. -/
def lruGet (cache : List (Nat × Nat)) (h : Nat) :
    Option Nat × List (Nat × Nat) :=
  match cache.find? (fun p => p.1 = h) with
  | some (_, b) => (some b, (h, b) :: cache.filter (fun p => ¬ p.1 = h))
  | none => (none, cache)

/-- `LruCache::put`: insert/update at the most-recently-used position,
evicting the least-recently-used entry when over capacity. -/
def lruPut (cache : List (Nat × Nat)) (h b capacity : Nat) :
    List (Nat × Nat) :=
  ((h, b) :: cache.filter (fun p => ¬ p.1 = h)).take capacity

/-- `BlockByHash::block_by_hash` for `Cache<C>` (cache.rs:64-77): serve from
the LRU cache if present, otherwise fetch from the underlying connector and
insert.  The middle component counts the calls made to the underlying
connector (0 or 1); a connector error propagates via `?` without inserting. -/
def block_by_hash (connector : Nat → Except String Nat) (st : CacheState)
    (block_hash : Nat) : CacheState × Nat × Except String Nat :=
  match lruGet st.block_cache block_hash with
  | (some block, cache2) =>
      ({ st with block_cache := cache2 }, 0, Except.ok block)
  | (none, _) =>
      match connector block_hash with
      | Except.error e => (st, 1, Except.error e)
      | Except.ok block =>
          ({ st with
              block_cache := lruPut st.block_cache block_hash block st.capacity },
           1, Except.ok block)

/-- `ConnectedNetwork::connected_network` for `Cache<C>` (cache.rs:87-96):
return the cached network if the slot is populated, otherwise ask the
underlying connector and fill the slot.  The middle component counts the
calls made to the underlying connector (0 or 1); a connector error
propagates via `?` leaving the slot empty. -/
def connected_network (connector : Unit → Except String Nat)
    (st : CacheState) : CacheState × Nat × Except String Nat :=
  match st.connected_network_cache with
  | some network => (st, 0, Except.ok network)
  | none =>
      match connector () with
      | Except.error e => (st, 1, Except.error e)
      | Except.ok network =>
          ({ st with connected_network_cache := some network },
           1, Except.ok network)

end BitcoinCache

namespace NectarWallet

/-! SHA-256 over byte lists (bytes are `Nat` values `< 256`, 32-bit words are
`Nat` values reduced modulo `2^32`), embedding the `bitcoin_hashes` engine
used by `wallet.rs` (FIPS 180-4). -/

/-- Truncate to a 32-bit word. -/
def w32 (x : Nat) : Nat := x % 4294967296

/-- Right-rotation of a 32-bit word, written arithmetically: the low `n` bits
wrap around to the top. -/
def rotr (x n : Nat) : Nat :=
  (x / 2 ^ n + x % 2 ^ n * 2 ^ (32 - n)) % 4294967296

/-- Three-way xor. -/
def xor3 (a b c : Nat) : Nat := a ^^^ b ^^^ c

/-- FIPS 180-4 Σ₀. -/
def bsig0 (x : Nat) : Nat := xor3 (rotr x 2) (rotr x 13) (rotr x 22)

/-- FIPS 180-4 Σ₁. -/
def bsig1 (x : Nat) : Nat := xor3 (rotr x 6) (rotr x 11) (rotr x 25)

/-- FIPS 180-4 σ₀. -/
def ssig0 (x : Nat) : Nat := xor3 (rotr x 7) (rotr x 18) (x / 8)

/-- FIPS 180-4 σ₁. -/
def ssig1 (x : Nat) : Nat := xor3 (rotr x 17) (rotr x 19) (x / 1024)

/-- FIPS 180-4 Ch. -/
def ch (x y z : Nat) : Nat := (x &&& y) ^^^ ((x ^^^ 4294967295) &&& z)

/-- FIPS 180-4 Maj. -/
def maj (x y z : Nat) : Nat := xor3 (x &&& y) (x &&& z) (y &&& z)

/-- The 64 SHA-256 round constants. -/
def K : List Nat :=
  [1116352408, 1899447441, 3049323471, 3921009573,
   961987163, 1508970993, 2453635748, 2870763221,
   3624381080, 310598401, 607225278, 1426881987,
   1925078388, 2162078206, 2614888103, 3248222580,
   3835390401, 4022224774, 264347078, 604807628,
   770255983, 1249150122, 1555081692, 1996064986,
   2554220882, 2821834349, 2952996808, 3210313671,
   3336571891, 3584528711, 113926993, 338241895,
   666307205, 773529912, 1294757372, 1396182291,
   1695183700, 1986661051, 2177026350, 2456956037,
   2730485921, 2820302411, 3259730800, 3345764771,
   3516065817, 3600352804, 4094571909, 275423344,
   430227734, 506948616, 659060556, 883997877,
   958139571, 1322822218, 1537002063, 1747873779,
   1955562222, 2024104815, 2227730452, 2361852424,
   2428436474, 2756734187, 3204031479, 3329325298]

/-- The SHA-256 initial hash state. -/
def H0 : List Nat :=
  [1779033703, 3144134277, 1013904242, 2773480762,
   1359893119, 2600822924, 528734635, 1541459225]

/-- `n` bytes of `v`, big-endian. -/
def beBytes (n v : Nat) : List Nat :=
  (List.range n).map (fun i => (v >>> (8 * (n - 1 - i))) &&& 255)

/-- Big-endian byte list to `Nat`. -/
def bytesToNatBE (bs : List Nat) : Nat :=
  bs.foldl (fun acc b => acc * 256 + b) 0

/-- Split a list into chunks of `n`; `fuel` bounds the recursion (call with
`fuel = l.length`). -/
def chunksOf (n : Nat) : Nat → List Nat → List (List Nat)
  | 0, _ => []
  | _ + 1, [] => []
  | fuel + 1, l => l.take n :: chunksOf n fuel (l.drop n)

/-- FIPS 180-4 padding: append `0x80`, zeros to 56 mod 64, then the 64-bit
big-endian bit length. -/
def padMessage (msg : List Nat) : List Nat :=
  let len := msg.length
  let k := (119 - len % 64) % 64
  msg ++ [128] ++ List.replicate k 0 ++ beBytes 8 (8 * len)

/-- Extend the 16-word message schedule to 64 words (`fuel = 48`). -/
def extendSchedule : Nat → List Nat → List Nat
  | 0, ws => ws
  | fuel + 1, ws =>
      let t := ws.length
      let nw := w32 (ssig1 (ws.getD (t - 2) 0) + ws.getD (t - 7) 0 +
                     ssig0 (ws.getD (t - 15) 0) + ws.getD (t - 16) 0)
      extendSchedule fuel (ws ++ [nw])

/-- One SHA-256 compression round; the state is `[a, b, c, d, e, f, g, h]`,
`kw` is the round constant paired with the schedule word. -/
def compressionRound (st : List Nat) (kw : Nat × Nat) : List Nat :=
  let a := st.getD 0 0
  let b := st.getD 1 0
  let c := st.getD 2 0
  let d := st.getD 3 0
  let e := st.getD 4 0
  let f := st.getD 5 0
  let g := st.getD 6 0
  let h := st.getD 7 0
  let t1 := w32 (h + bsig1 e + ch e f g + kw.1 + kw.2)
  let t2 := w32 (bsig0 a + maj a b c)
  [w32 (t1 + t2), a, b, c, w32 (d + t1), e, f, g]

/-- Process one 64-byte block into the running hash state. -/
def processBlock (hs : List Nat) (block : List Nat) : List Nat :=
  let ws16 := (chunksOf 4 block.length block).map bytesToNatBE
  let ws := extendSchedule 48 ws16
  let st := (K.zip ws).foldl compressionRound hs
  (hs.zip st).map (fun p => w32 (p.1 + p.2))

/-- SHA-256 of a byte list, as a 32-byte digest. -/
def sha256 (msg : List Nat) : List Nat :=
  let padded := padMessage msg
  let blocks := chunksOf 64 padded.length padded
  let hs := blocks.foldl processBlock H0
  (hs.map (beBytes 4)).flatten

/-- The order of the secp256k1 group. -/
def SECP256K1_ORDER : Nat :=
  0xFFFFFFFFFFFFFFFFFFFFFFFFFFFFFFFEBAAEDCE6AF48A03BBFD25E8CD0364141

/-- Modelled from the secp256k1 library contract (outside this repository):
`SecretKey::from_slice` on a 32-byte slice succeeds exactly when the slice,
read as a big-endian integer, lies in `[1, group order)`; `none` models the
`Err` that the source's `expect` would turn into a panic. -/
def secretKeyFromSlice (bs : List Nat) : Option Nat :=
  let d := bytesToNatBE bs
  if 1 ≤ d ∧ d < SECP256K1_ORDER then some d else none

/-- The seed: its raw bytes (`Seed::bytes`). -/
structure Seed where
  bytes : List Nat
deriving DecidableEq, Repr

/-- `SwapId`: its raw bytes (`SwapId::as_bytes`, a 128-bit uuid). -/
structure SwapId where
  as_bytes : List Nat
deriving DecidableEq, Repr

/-- The bitcoind client as observed by the wallet: the network reported by
the node (`Client::network`), and the node's responses to the two broadcast
RPCs, keyed by their payloads. -/
structure Client where
  network_response : Except String Nat
  send_raw_transaction_response : Nat → Except String Nat
  send_to_address_response : Nat → Nat → Except String Nat
deriving Inhabited

/-- The `Wallet` struct (wallet.rs:17-24): name, client, seed, expected
network. -/
structure Wallet where
  name : String
  bitcoind_client : Client
  seed : Seed
  network : Nat

/-- The fixed domain-separation label `b"TRANSIENT_KEY"`. -/
def transient_key_label : List Nat :=
  [84, 82, 65, 78, 83, 73, 69, 78, 84, 95, 75, 69, 89]

/-- `derive_transient_sk` (wallet.rs:75-85): SHA-256 over seed bytes, swap id
bytes and the fixed label, then `SecretKey::from_slice`; `none` models the
`expect` panic branch. -/
def derive_transient_sk (w : Wallet) (swap_id : SwapId) : Option Nat :=
  let hash := sha256 (w.seed.bytes ++ swap_id.as_bytes ++ transient_key_label)
  secretKeyFromSlice hash

/-- The transient key as the spec describes it: a deterministic function of
(master seed, swap id, fixed domain-separation label) via a keyed hash, and
of nothing else.  Stated separately from `derive_transient_sk` (which reads a
whole `Wallet`) to compare the two. -/
def spec_transient_key (seed_bytes id_bytes : List Nat) : Option Nat :=
  secretKeyFromSlice (sha256 (seed_bytes ++ id_bytes ++ transient_key_label))

/-- `assert_network` (wallet.rs:237-245): fetch the node's network and bail
on mismatch. -/
def assert_network (w : Wallet) (expected : Nat) : Except String Unit :=
  match w.bitcoind_client.network_response with
  | Except.error e => Except.error e
  | Except.ok actual =>
      if expected ≠ actual then
        Except.error ("Wrong network: expected " ++ toString expected ++
                      ", got " ++ toString actual)
      else Except.ok ()

/-- `send_to_address` (wallet.rs:192-205): assert the network, then broadcast.
The boolean records whether the broadcast RPC was reached. -/
def send_to_address (w : Wallet) (address amount network : Nat) :
    Bool × Except String Nat :=
  match assert_network w network with
  | Except.error e => (false, Except.error e)
  | Except.ok _ =>
      (true, w.bitcoind_client.send_to_address_response address amount)

/-- `send_raw_transaction` (wallet.rs:207-219): assert the network, then
broadcast.  The boolean records whether the broadcast RPC was reached. -/
def send_raw_transaction (w : Wallet) (transaction network : Nat) :
    Bool × Except String Nat :=
  match assert_network w network with
  | Except.error e => (false, Except.error e)
  | Except.ok _ =>
      (true, w.bitcoind_client.send_raw_transaction_response transaction)

end NectarWallet


/-! Concrete instances used by the witness theorems. -/

/-- A swap record with no herc20 event stored yet. -/
def C4emptySwap : NectarDb.Swap :=
  { herc20_deployed := none, herc20_funded := none,
    herc20_redeemed := none, herc20_refunded := none }

/-- A database holding exactly the swap with id 0. -/
def C4db : NectarDb.Database :=
  fun j => if j = (0 : Nat) then some C4emptySwap else none

/-- A connector returning block 7 for every hash. -/
def C6connector : Nat → Except String Nat := fun _ => Except.ok 7

/-- A bitcoind client whose node reports network 1. -/
def C7clientOn1 : NectarWallet.Client :=
  { network_response := Except.ok 1
    send_raw_transaction_response := fun _ => Except.ok 99
    send_to_address_response := fun _ _ => Except.ok 98 }

/-- A bitcoind client whose node reports network 0. -/
def C7clientOn0 : NectarWallet.Client :=
  { network_response := Except.ok 0
    send_raw_transaction_response := fun _ => Except.ok 99
    send_to_address_response := fun _ _ => Except.ok 98 }

/-- A wallet expecting network 0 but connected to a node on network 1. -/
def C7walletMismatch : NectarWallet.Wallet :=
  { name := "nectar_a", bitcoind_client := C7clientOn1,
    seed := ⟨List.replicate 32 7⟩, network := 0 }

/-- A wallet expecting network 0 connected to a node on network 0. -/
def C7walletMatch : NectarWallet.Wallet :=
  { name := "nectar_a", bitcoind_client := C7clientOn0,
    seed := ⟨List.replicate 32 7⟩, network := 0 }

/-- A fixed seed. -/
def C8seed : NectarWallet.Seed := ⟨List.replicate 32 7⟩

/-- Two wallets sharing `C8seed` but differing in name, client and
network. -/
def C8walletA : NectarWallet.Wallet :=
  { name := "nectar_a", bitcoind_client := C7clientOn0,
    seed := C8seed, network := 0 }

/-- Second wallet over the same seed. -/
def C8walletB : NectarWallet.Wallet :=
  { name := "nectar_b", bitcoind_client := C7clientOn1,
    seed := C8seed, network := 1 }

/-- A fixed swap id (16 bytes). -/
def C8swapId : NectarWallet.SwapId := ⟨List.replicate 16 3⟩

/-! Claim theorems. -/

/-- Claim C1 (counterexample): the claim "either leg terminal implies empty
action set" fails on the Bob implementation: with the swap accepted, alpha
Funded, beta already Redeemed and the secret known, `actions` still returns a
Redeem action, not the empty set. -/
theorem C1_counterexample :
    BtcErc20Bob.actions
      { swap_communication := BtcErc20Bob.SwapCommunication.Accepted
          { alpha_asset := 1, beta_asset_token_contract := 2,
            alpha_ledger_network := 3, beta_ledger_network := 4,
            alpha_htlc_params := ⟨5⟩, beta_htlc_params := ⟨6⟩ }
        alpha_ledger_state := BtcErc20Bob.LedgerState.Funded 7 8
        beta_ledger_state := BtcErc20Bob.LedgerState.Redeemed 9 10
        secret := some 10
        secret_source := ⟨11⟩ } ≠ [] := by
  decide

/-- Claim C1 (amended): terminal states silence the action set only as
follows — for every accepted Bob-role state whose alpha leg is Redeemed or
Refunded, `actions` returns the empty set regardless of the beta state and of
secret knowledge; and the Alice implementation returns the empty set on its
Final states (both legs resolved).  A terminal state on only one leg does not
in general empty the action set. -/
theorem C1_terminal_actions_amended :
    (∀ (sa : BtcErc20Bob.SwapAccepted) (beta : BtcErc20Bob.LedgerState)
       (sec : Option Nat) (ss : BtcErc20Bob.SecretSource) (tx s : Nat),
        BtcErc20Bob.actions
          { swap_communication := BtcErc20Bob.SwapCommunication.Accepted sa
            alpha_ledger_state := BtcErc20Bob.LedgerState.Redeemed tx s
            beta_ledger_state := beta
            secret := sec
            secret_source := ss } = [] ∧
        BtcErc20Bob.actions
          { swap_communication := BtcErc20Bob.SwapCommunication.Accepted sa
            alpha_ledger_state := BtcErc20Bob.LedgerState.Refunded tx
            beta_ledger_state := beta
            secret := sec
            secret_source := ss } = []) ∧
    (∀ f : Nat, BtcEthAlice.actions (BtcEthAlice.SwapStates.Final f) = []) := by
  refine ⟨fun sa beta sec ss tx s => ⟨?_, ?_⟩, fun f => rfl⟩ <;>
    cases beta <;> cases sec <;> rfl

/-- Claim C2: for accepted Bob-role states with alpha Funded — beta
NotDeployed and no secret yields exactly the Deploy of the beta HTLC; beta
Deployed and no secret yields exactly the Fund of the beta HTLC at its
deployed location; a known secret yields exactly the Redeem action regardless
of the beta state. -/
theorem C2_bob_accepted_action_table :
    ∀ (sa : BtcErc20Bob.SwapAccepted) (loc tx : Nat)
      (ss : BtcErc20Bob.SecretSource),
      (BtcErc20Bob.actions
          { swap_communication := BtcErc20Bob.SwapCommunication.Accepted sa
            alpha_ledger_state := BtcErc20Bob.LedgerState.Funded loc tx
            beta_ledger_state := BtcErc20Bob.LedgerState.NotDeployed
            secret := none
            secret_source := ss }
        = [BtcErc20Bob.ActionKind.Deploy (BtcErc20Bob.deploy_action sa)]) ∧
      (∀ bloc btx,
        BtcErc20Bob.actions
            { swap_communication := BtcErc20Bob.SwapCommunication.Accepted sa
              alpha_ledger_state := BtcErc20Bob.LedgerState.Funded loc tx
              beta_ledger_state := BtcErc20Bob.LedgerState.Deployed bloc btx
              secret := none
              secret_source := ss }
          = [BtcErc20Bob.ActionKind.Fund (BtcErc20Bob.fund_action sa bloc)]) ∧
      (∀ (beta : BtcErc20Bob.LedgerState) (s : Nat),
        BtcErc20Bob.actions
            { swap_communication := BtcErc20Bob.SwapCommunication.Accepted sa
              alpha_ledger_state := BtcErc20Bob.LedgerState.Funded loc tx
              beta_ledger_state := beta
              secret := some s
              secret_source := ss }
          = [BtcErc20Bob.ActionKind.Redeem
              (BtcErc20Bob.redeem_action sa loc ss s)]) := by
  refine fun sa loc tx ss => ⟨rfl, fun bloc btx => rfl, fun beta s => ?_⟩
  cases beta <;> rfl

/-- Claim C5: in Alice's BothFunded state (both legs funded, secret known by
construction), `actions` returns exactly two actions, the Redeem of the beta
(Ether) HTLC and the Refund of the alpha (Bitcoin) HTLC, simultaneously. -/
theorem C5_alice_both_funded_actions :
    ∀ (source_htlc_id target_htlc_id : Nat) (start : BtcEthAlice.Start)
      (response : BtcEthAlice.Response),
      BtcEthAlice.actions
          (BtcEthAlice.SwapStates.BothFunded source_htlc_id target_htlc_id
            start response)
        = [BtcEthAlice.Action.RedeemHtlc
            { contract_address := target_htlc_id
              execution_gas := 42
              data := start.secret },
           BtcEthAlice.Action.RefundHtlc
            { outpoint := source_htlc_id
              htlc := BtcEthAlice.bitcoin_htlc start response
              value := start.source_asset
              transient_keypair := start.source_identity }] :=
  fun _ _ _ _ => rfl

/-- Claim C3: nectar's `watch_for_funded` yields `Ok(Funded)` exactly on a
`Correctly` classification; an `Incorrectly` classification becomes a
distinct error outcome, never a Funded event; watcher errors pass through;
and when the swap driver surfaces the failure as
`SwapFailedShouldRefund(deployed)`, `refund_if_necessary` executes the refund
on the deploy event and returns an error (refund-only path), never a success
and never an Ok-Funded. -/
theorem C3_incorrect_funding_not_funded :
    (∀ (t : Nat) (a : NectarHerc20.Erc20),
      NectarHerc20.watch_for_funded
          (Except.ok (NectarHerc20.ComitFunded.Correctly t a))
        = Except.ok { transaction := t, asset := a }) ∧
    (∀ (t : Nat) (a : NectarHerc20.Erc20),
      NectarHerc20.watch_for_funded
          (Except.ok (NectarHerc20.ComitFunded.Incorrectly t a))
        = Except.error
            (NectarHerc20.NError.message "Ethereum HTLC incorrectly funded")) ∧
    (∀ e, NectarHerc20.watch_for_funded (Except.error e) = Except.error e) ∧
    (∀ (σ : Type)
       (execute_refund : NectarHerc20.Deployed → σ →
         σ × Except NectarHerc20.NError NectarHerc20.Refunded)
       (st : σ) (d : NectarHerc20.Deployed),
      NectarHerc20.refund_if_necessary execute_refund st
          (NectarHerc20.incorrect_funding_outcome d)
        = match execute_refund d st with
          | (st2, Except.ok _) =>
              (st2, Except.error (NectarHerc20.NError.swapFailedShouldRefund d))
          | (st2, Except.error e2) => (st2, Except.error e2)) := by
  refine ⟨fun t a => rfl, fun t a => rfl, fun e => rfl, ?_⟩
  intro σ execute_refund st d
  unfold NectarHerc20.refund_if_necessary NectarHerc20.incorrect_funding_outcome
  rcases h : execute_refund d st with ⟨st2, r⟩
  cases r <;> simp [h]

/-- Helper for C4: `save_deployed` writes into an absent slot and fails on a
populated one. -/
theorem NectarDb.save_deployed_once (db : NectarDb.Database)
    (id : NectarDb.SwapId) (s : NectarDb.Swap)
    (ev ev2 : NectarDb.Herc20Deployed)
    (hdb : db id = some s) (hnone : s.herc20_deployed = none) :
    NectarDb.save_deployed db ev id =
      Except.ok (fun j => if j = id then
        some { s with herc20_deployed := some ev } else db j) ∧
    NectarDb.save_deployed (fun j => if j = id then
        some { s with herc20_deployed := some ev } else db j) ev2 id =
      Except.error "Herc20 Deployed event is already stored" := by
  constructor
  · simp [NectarDb.save_deployed, NectarDb.update_swap, hdb, hnone]
  · simp [NectarDb.save_deployed, NectarDb.update_swap]

/-- Helper for C4: `save_funded` writes into an absent slot and fails on a
populated one. -/
theorem NectarDb.save_funded_once (db : NectarDb.Database)
    (id : NectarDb.SwapId) (s : NectarDb.Swap)
    (ev ev2 : NectarDb.Herc20Funded)
    (hdb : db id = some s) (hnone : s.herc20_funded = none) :
    NectarDb.save_funded db ev id =
      Except.ok (fun j => if j = id then
        some { s with herc20_funded := some ev } else db j) ∧
    NectarDb.save_funded (fun j => if j = id then
        some { s with herc20_funded := some ev } else db j) ev2 id =
      Except.error "Herc20 Funded event is already stored" := by
  constructor
  · simp [NectarDb.save_funded, NectarDb.update_swap, hdb, hnone]
  · simp [NectarDb.save_funded, NectarDb.update_swap]

/-- Helper for C4: `save_redeemed` writes into an absent slot and fails on a
populated one. -/
theorem NectarDb.save_redeemed_once (db : NectarDb.Database)
    (id : NectarDb.SwapId) (s : NectarDb.Swap)
    (ev ev2 : NectarDb.Herc20Redeemed)
    (hdb : db id = some s) (hnone : s.herc20_redeemed = none) :
    NectarDb.save_redeemed db ev id =
      Except.ok (fun j => if j = id then
        some { s with herc20_redeemed := some ev } else db j) ∧
    NectarDb.save_redeemed (fun j => if j = id then
        some { s with herc20_redeemed := some ev } else db j) ev2 id =
      Except.error "Herc20 Redeem event is already stored" := by
  constructor
  · simp [NectarDb.save_redeemed, NectarDb.update_swap, hdb, hnone]
  · simp [NectarDb.save_redeemed, NectarDb.update_swap]

/-- Helper for C4: `save_refunded` writes into an absent slot and fails on a
populated one. -/
theorem NectarDb.save_refunded_once (db : NectarDb.Database)
    (id : NectarDb.SwapId) (s : NectarDb.Swap)
    (ev ev2 : NectarDb.Herc20Refunded)
    (hdb : db id = some s) (hnone : s.herc20_refunded = none) :
    NectarDb.save_refunded db ev id =
      Except.ok (fun j => if j = id then
        some { s with herc20_refunded := some ev } else db j) ∧
    NectarDb.save_refunded (fun j => if j = id then
        some { s with herc20_refunded := some ev } else db j) ev2 id =
      Except.error "Herc20 Refunded event is already stored" := by
  constructor
  · simp [NectarDb.save_refunded, NectarDb.update_swap, hdb, hnone]
  · simp [NectarDb.save_refunded, NectarDb.update_swap]

/-- Claim C4: for every event kind, saving into a stored swap whose slot for
that kind is empty succeeds and stores the event (touching no other swap);
a second `save` of the same kind then fails with that kind's duplicate-event
error and the database state after the failed call equals the state after the
first call. -/
theorem C4_save_idempotence :
    ∀ (db : NectarDb.Database) (id : NectarDb.SwapId) (s : NectarDb.Swap)
      (e e2 : NectarDb.Event),
      db id = some s → s.hasKind e.kind = false → e2.kind = e.kind →
      ∃ db2 : NectarDb.Database,
        NectarDb.save db e id = Except.ok db2 ∧
        db2 id = some (s.store e) ∧
        (∀ j, j ≠ id → db2 j = db j) ∧
        NectarDb.save db2 e2 id =
          Except.error (NectarDb.duplicate_message e.kind) ∧
        NectarDb.state_after db2 (NectarDb.save db2 e2 id) = db2 := by
  intro db id s e e2 hdb hnone hkind
  cases e with
  | deployed ev =>
    cases e2 with
    | deployed ev2 =>
      have hn : s.herc20_deployed = none := by
        cases hx : s.herc20_deployed with
        | none => rfl
        | some v =>
            simp [NectarDb.Event.kind, NectarDb.Swap.hasKind, hx] at hnone
      obtain ⟨h1, h2⟩ := NectarDb.save_deployed_once db id s ev ev2 hdb hn
      refine ⟨_, h1, by simp [NectarDb.Swap.store], fun j hj => by simp [hj],
        ?_, ?_⟩
      · simpa [NectarDb.save, NectarDb.duplicate_message,
          NectarDb.Event.kind] using h2
      · simp [NectarDb.save, NectarDb.state_after, h2]
    | funded ev2 => simp [NectarDb.Event.kind] at hkind
    | redeemed ev2 => simp [NectarDb.Event.kind] at hkind
    | refunded ev2 => simp [NectarDb.Event.kind] at hkind
  | funded ev =>
    cases e2 with
    | deployed ev2 => simp [NectarDb.Event.kind] at hkind
    | funded ev2 =>
      have hn : s.herc20_funded = none := by
        cases hx : s.herc20_funded with
        | none => rfl
        | some v =>
            simp [NectarDb.Event.kind, NectarDb.Swap.hasKind, hx] at hnone
      obtain ⟨h1, h2⟩ := NectarDb.save_funded_once db id s ev ev2 hdb hn
      refine ⟨_, h1, by simp [NectarDb.Swap.store], fun j hj => by simp [hj],
        ?_, ?_⟩
      · simpa [NectarDb.save, NectarDb.duplicate_message,
          NectarDb.Event.kind] using h2
      · simp [NectarDb.save, NectarDb.state_after, h2]
    | redeemed ev2 => simp [NectarDb.Event.kind] at hkind
    | refunded ev2 => simp [NectarDb.Event.kind] at hkind
  | redeemed ev =>
    cases e2 with
    | deployed ev2 => simp [NectarDb.Event.kind] at hkind
    | funded ev2 => simp [NectarDb.Event.kind] at hkind
    | redeemed ev2 =>
      have hn : s.herc20_redeemed = none := by
        cases hx : s.herc20_redeemed with
        | none => rfl
        | some v =>
            simp [NectarDb.Event.kind, NectarDb.Swap.hasKind, hx] at hnone
      obtain ⟨h1, h2⟩ := NectarDb.save_redeemed_once db id s ev ev2 hdb hn
      refine ⟨_, h1, by simp [NectarDb.Swap.store], fun j hj => by simp [hj],
        ?_, ?_⟩
      · simpa [NectarDb.save, NectarDb.duplicate_message,
          NectarDb.Event.kind] using h2
      · simp [NectarDb.save, NectarDb.state_after, h2]
    | refunded ev2 => simp [NectarDb.Event.kind] at hkind
  | refunded ev =>
    cases e2 with
    | deployed ev2 => simp [NectarDb.Event.kind] at hkind
    | funded ev2 => simp [NectarDb.Event.kind] at hkind
    | redeemed ev2 => simp [NectarDb.Event.kind] at hkind
    | refunded ev2 =>
      have hn : s.herc20_refunded = none := by
        cases hx : s.herc20_refunded with
        | none => rfl
        | some v =>
            simp [NectarDb.Event.kind, NectarDb.Swap.hasKind, hx] at hnone
      obtain ⟨h1, h2⟩ := NectarDb.save_refunded_once db id s ev ev2 hdb hn
      refine ⟨_, h1, by simp [NectarDb.Swap.store], fun j hj => by simp [hj],
        ?_, ?_⟩
      · simpa [NectarDb.save, NectarDb.duplicate_message,
          NectarDb.Event.kind] using h2
      · simp [NectarDb.save, NectarDb.state_after, h2]

/-- Witness for C4: instantiated at the one-swap database, a Funded event and
a second, different Funded event. -/
theorem C4_witness :
    C4db (0 : Nat) = some C4emptySwap ∧
    C4emptySwap.hasKind (NectarDb.Event.funded ⟨42⟩).kind = false ∧
    (NectarDb.Event.funded ⟨43⟩).kind = (NectarDb.Event.funded ⟨42⟩).kind ∧
    ∃ db2 : NectarDb.Database,
      NectarDb.save C4db (NectarDb.Event.funded ⟨42⟩) 0 = Except.ok db2 ∧
      db2 0 = some (C4emptySwap.store (NectarDb.Event.funded ⟨42⟩)) ∧
      (∀ j, j ≠ 0 → db2 j = C4db j) ∧
      NectarDb.save db2 (NectarDb.Event.funded ⟨43⟩) 0 =
        Except.error
          (NectarDb.duplicate_message (NectarDb.Event.funded ⟨42⟩).kind) ∧
      NectarDb.state_after db2
          (NectarDb.save db2 (NectarDb.Event.funded ⟨43⟩) 0) = db2 :=
  ⟨rfl, rfl, rfl,
   C4_save_idempotence C4db 0 C4emptySwap
     (NectarDb.Event.funded ⟨42⟩) (NectarDb.Event.funded ⟨43⟩) rfl rfl rfl⟩

/-- Claim C6: on a fresh cache whose underlying connector returns a fixed
block for hash `h`, two `block_by_hash h` calls make exactly one underlying
connector call in total (one on the first call, none on the second) and both
return that block. -/
theorem C6_block_cache_transparency :
    ∀ (connector : Nat → Except String Nat) (capacity h b : Nat),
      connector h = Except.ok b → 0 < capacity →
      (BitcoinCache.block_by_hash connector (BitcoinCache.Cache.new capacity)
          h).2 = (1, Except.ok b) ∧
      (BitcoinCache.block_by_hash connector
          (BitcoinCache.block_by_hash connector
            (BitcoinCache.Cache.new capacity) h).1 h).2
        = (0, Except.ok b) := by
  intro connector capacity h b hconn hcap
  have htake : List.take capacity [(h, b)] = [(h, b)] :=
    List.take_of_length_le (by simpa using hcap)
  have h1 : BitcoinCache.block_by_hash connector
      (BitcoinCache.Cache.new capacity) h
      = ({ block_cache := [(h, b)], capacity := capacity,
           connected_network_cache := none }, 1, Except.ok b) := by
    simp [BitcoinCache.block_by_hash, BitcoinCache.Cache.new,
      BitcoinCache.lruGet, BitcoinCache.lruPut, hconn, htake]
  refine ⟨by rw [h1], ?_⟩
  rw [h1]
  simp [BitcoinCache.block_by_hash, BitcoinCache.lruGet]

/-- Witness for C6: connector fixed at block 7, capacity 144, hash 0. -/
theorem C6_witness :
    C6connector 0 = Except.ok 7 ∧ 0 < 144 ∧
    ((BitcoinCache.block_by_hash C6connector (BitcoinCache.Cache.new 144)
        0).2 = (1, Except.ok 7) ∧
     (BitcoinCache.block_by_hash C6connector
        (BitcoinCache.block_by_hash C6connector (BitcoinCache.Cache.new 144)
          0).1 0).2 = (0, Except.ok 7)) :=
  ⟨rfl, by decide, C6_block_cache_transparency C6connector 144 0 7 rfl
    (by decide)⟩

/-- Claim C7: a mutating wallet operation bails with the network-mismatch
error and never reaches the broadcast RPC when the node's reported network
differs from the expected one, and reaches the broadcast RPC only when the
node reports exactly the expected network. -/
theorem C7_network_mismatch_blocks_send :
    ∀ (w : NectarWallet.Wallet) (transaction address amount expected actual :
      Nat),
      (w.bitcoind_client.network_response = Except.ok actual →
        actual ≠ expected →
        NectarWallet.send_raw_transaction w transaction expected =
          (false, Except.error ("Wrong network: expected " ++
            toString expected ++ ", got " ++ toString actual)) ∧
        NectarWallet.send_to_address w address amount expected =
          (false, Except.error ("Wrong network: expected " ++
            toString expected ++ ", got " ++ toString actual))) ∧
      ((NectarWallet.send_raw_transaction w transaction expected).1 = true →
        w.bitcoind_client.network_response = Except.ok expected) ∧
      ((NectarWallet.send_to_address w address amount expected).1 = true →
        w.bitcoind_client.network_response = Except.ok expected) := by
  intro w transaction address amount expected actual
  refine ⟨fun hresp hne => ?_, ?_, ?_⟩
  · have hne2 : expected ≠ actual := fun hh => hne hh.symm
    constructor <;>
      simp [NectarWallet.send_raw_transaction, NectarWallet.send_to_address,
        NectarWallet.assert_network, hresp, hne2]
  · intro htrue
    cases hre : w.bitcoind_client.network_response with
    | error e =>
        simp [NectarWallet.send_raw_transaction,
          NectarWallet.assert_network, hre] at htrue
    | ok a =>
        by_cases hea : expected = a
        · rw [hea]
        · simp [NectarWallet.send_raw_transaction,
            NectarWallet.assert_network, hre, hea] at htrue
  · intro htrue
    cases hre : w.bitcoind_client.network_response with
    | error e =>
        simp [NectarWallet.send_to_address,
          NectarWallet.assert_network, hre] at htrue
    | ok a =>
        by_cases hea : expected = a
        · rw [hea]
        · simp [NectarWallet.send_to_address,
            NectarWallet.assert_network, hre, hea] at htrue

/-- Witness for C7: a wallet on the wrong network (node reports 1, expected
0) refuses both sends without broadcasting; a wallet on the right network
broadcasts and its node indeed reports the expected network. -/
theorem C7_witness :
    (C7walletMismatch.bitcoind_client.network_response = Except.ok 1 ∧
     (1 : Nat) ≠ 0 ∧
     (NectarWallet.send_raw_transaction C7walletMismatch 5 0 =
        (false, Except.error ("Wrong network: expected " ++
          toString (0 : Nat) ++ ", got " ++ toString (1 : Nat))) ∧
      NectarWallet.send_to_address C7walletMismatch 6 7 0 =
        (false, Except.error ("Wrong network: expected " ++
          toString (0 : Nat) ++ ", got " ++ toString (1 : Nat))))) ∧
    ((NectarWallet.send_raw_transaction C7walletMatch 5 0).1 = true ∧
     C7walletMatch.bitcoind_client.network_response = Except.ok 0) :=
  ⟨⟨rfl, by decide,
    (C7_network_mismatch_blocks_send C7walletMismatch 5 6 7 0 1).1 rfl
      (by decide)⟩,
   ⟨rfl,
    (C7_network_mismatch_blocks_send C7walletMatch 5 6 7 0 0).2.1 rfl⟩⟩

/-- Claim C8: the transient per-swap secret key is the deterministic keyed
hash of exactly (master seed bytes, swap id bytes, fixed label): it equals
the pure function of those inputs, and two wallets over the same seed derive
the same key for the same swap id regardless of any other wallet state. -/
theorem C8_transient_key_deterministic :
    ∀ (w w2 : NectarWallet.Wallet) (swap_id : NectarWallet.SwapId),
      NectarWallet.derive_transient_sk w swap_id =
        NectarWallet.spec_transient_key w.seed.bytes swap_id.as_bytes ∧
      (w.seed = w2.seed →
        NectarWallet.derive_transient_sk w swap_id =
          NectarWallet.derive_transient_sk w2 swap_id) := by
  intro w w2 swap_id
  refine ⟨rfl, fun hseed => ?_⟩
  simp [NectarWallet.derive_transient_sk, hseed]

/-- Witness for C8: two wallets differing in name, client and network but
sharing a seed derive the same transient key. -/
theorem C8_witness :
    C8walletA.seed = C8walletB.seed ∧
    NectarWallet.derive_transient_sk C8walletA C8swapId =
      NectarWallet.derive_transient_sk C8walletB C8swapId :=
  ⟨rfl, (C8_transient_key_deterministic C8walletA C8walletB C8swapId).2 rfl⟩

/-- Claim C9: the connected-network slot is filled by the first successful
call (one connector call, returning the connector's network) and once filled
every further call returns the cached network, leaves the state unchanged
and performs zero connector calls, whatever the underlying connector would
now answer. -/
theorem C9_connected_network_single_slot :
    ∀ (block_cache : List (Nat × Nat)) (capacity n m : Nat)
      (connector2 : Unit → Except String Nat),
      (BitcoinCache.connected_network (fun _ => Except.ok n)
          { block_cache := block_cache, capacity := capacity,
            connected_network_cache := none }
        = ({ block_cache := block_cache, capacity := capacity,
             connected_network_cache := some n }, 1, Except.ok n)) ∧
      (BitcoinCache.connected_network connector2
          { block_cache := block_cache, capacity := capacity,
            connected_network_cache := some m }
        = ({ block_cache := block_cache, capacity := capacity,
             connected_network_cache := some m }, 0, Except.ok m)) :=
  fun _ _ _ _ _ => ⟨rfl, rfl⟩
